import Mathlib

/-!
Shallow embedding of `src/abanico/clients.py` (the `abanico` routing client).

The Python module defines `EventualResult` (a waitable/cancellable pending
command), `RoutingPool` (a shard-aware connection broker) and `RoutingClient`
(dispatch with an admission-control loop).  External collaborators — the
router, the per-host connection pools, the wire protocol (`parse_response`,
`send_command`) and socket readiness (`select.select`) — are modelled as
oracles carried in the state, indexed by call counters, so that every
definition stays executable.

State is threaded explicitly: each method becomes `St → ... → Res α × St`,
where `Res` distinguishes a normal return, a raised exception (Python
exceptions do not roll back mutations, so the state is carried alongside),
and exhaustion of the fuel that bounds the source's unbounded `while` loops.
-/

namespace Abanico

/-- Exception kinds raised by the code in `clients.py` and its collaborators
(`TypeError`, `RuntimeError`, `ValueError`, `redis.exceptions.ConnectionError`,
`AttributeError`). -/
inductive Err where
  | typeError (msg : String)
  | runtimeError (msg : String)
  | valueError (msg : String)
  | connectionError
  | attributeError
  deriving DecidableEq

/-- Outcome of running one method: a normal return, a raised exception, or
fuel exhaustion standing for a `while` loop that is still blocked. -/
inductive Res (α : Type) where
  | ok (a : α)
  | raised (e : Err)
  | blocked
  deriving DecidableEq

/-- A connection handle.  `sock` models `connection._sock` (`none` after
`disconnect()`), `creatingPool` models the `__creating_pool` weakref tag set
by `RoutingPool.get_connection`; whether the referenced pool is still alive is
looked up in `St.livePools` at release time. -/
structure Conn where
  sock : Option Nat
  creatingPool : Option Nat
  deriving DecidableEq

/-- The fields of `EventualResult.__init__`: connection, command name, value
and the `result_ready` flag.  The weak back-reference to the owning client is
modelled by the global `St.clientAlive` flag (there is one client). -/
structure Er where
  connection : Option Conn
  command_name : String
  value : Option Nat
  result_ready : Bool
  deriving DecidableEq

/-- Global state: the single `RoutingClient`'s fields, the heap of
`EventualResult` objects (identified by index into `ers`), the liveness table
for per-host pools, the external oracles, and instrumentation counters that
record every external acquire/release/read/send/disconnect/notify call. -/
structure St where
  clientAlive : Bool
  max_concurrency : Option Nat
  current_requests : List Nat
  ers : List Er
  livePools : List Nat
  router : String → List String → Option Nat
  hostToPool : Nat → Nat
  readOracle : Nat → Except Err Nat
  sendOracle : Nat → Except Err Unit
  ready : Nat → Nat → Bool
  nextFd : Nat
  readCount : Nat
  sendCount : Nat
  selectCount : Nat
  notifyCount : Nat
  routingReleaseCount : Nat
  poolRelease : Nat → Nat
  poolAcquire : Nat → Nat
  totalAcquires : Nat
  disconnectCount : Nat

/-- Pointwise increment of a per-pool counter. -/
def bump (f : Nat → Nat) (k : Nat) : Nat → Nat :=
  fun x => if x = k then f x + 1 else f x

/-- Python `list.remove` with the surrounding `try/except ValueError: pass`:
removes the first occurrence, silently does nothing when absent. -/
def removeFirst : List Nat → Nat → List Nat
  | [], _ => []
  | y :: ys, x => if y = x then ys else y :: removeFirst ys x

/-- Heap read of an `EventualResult` by id (ids handed out by dispatch are
always in range; the default is never reached by the modelled flows). -/
def St.getEr (st : St) (i : Nat) : Er :=
  st.ers.getD i { connection := none, command_name := "", value := none, result_ready := false }

/-- Heap write of an `EventualResult` by id. -/
def St.setEr (st : St) (i : Nat) (e : Er) : St :=
  { st with ers := st.ers.set i e }

/-- `RoutingClient.notify_request_done`: removes the command from
`current_requests` if present, silently ignores absence. -/
def notify_request_done (st : St) (er : Nat) : St :=
  { st with current_requests := removeFirst st.current_requests er,
            notifyCount := st.notifyCount + 1 }

/-- `RoutingPool.release`: resolves the connection's `__creating_pool`
weakref; a missing attribute (`AttributeError`/`TypeError`, modelled by
`creatingPool = none` or a `none` connection) or a dead referent (pool id not
in `livePools`) silently drops the handle, otherwise the creating pool's
release counter is bumped.  `routingReleaseCount` counts every call. -/
def RoutingPool.release (st : St) (connection : Option Conn) : St :=
  let st := { st with routingReleaseCount := st.routingReleaseCount + 1 }
  match connection with
  | none => st
  | some con =>
    match con.creatingPool with
    | none => st
    | some pid =>
      if pid ∈ st.livePools then
        { st with poolRelease := bump st.poolRelease pid }
      else st

/-- `RoutingPool.get_connection`: `command_args is None` raises `TypeError`;
an unresolvable host raises `RuntimeError`; otherwise the per-host pool for
the routed host acquires a fresh handle, which is tagged with its creating
pool.  `shard_hint` is threaded through unused, as in the source. -/
def RoutingPool.get_connection (st : St) (command_name : String)
    (shard_hint : Option Nat) (command_args : Option (List String)) :
    Res Conn × St :=
  match command_args with
  | none =>
    (Res.raised (Err.typeError "The routing pool requires that the command arguments are provided."), st)
  | some args =>
    match st.router command_name args with
    | none => (Res.raised (Err.runtimeError "Unable to determine host for command"), st)
    | some host_id =>
      let pid := st.hostToPool host_id
      let con : Conn := { sock := some st.nextFd, creatingPool := some pid }
      (Res.ok con,
       { st with nextFd := st.nextFd + 1,
                 poolAcquire := bump st.poolAcquire pid,
                 totalAcquires := st.totalAcquires + 1 })

/-- The `EventualResult.client` property: dereferences the weakref to the
owning client, raising `RuntimeError("Client went away")` when it is gone. -/
def EventualResult.client (st : St) : Res Unit :=
  if st.clientAlive then Res.ok () else Res.raised (Err.runtimeError "Client went away")

/-- `EventualResult.fileno`: raises `ValueError` when the connection or its
socket is gone, otherwise returns the socket's file descriptor.  Note that it
never touches `self.client`. -/
def EventualResult.fileno (st : St) (i : Nat) : Res Nat :=
  match (st.getEr i).connection with
  | none => Res.raised (Err.valueError "I/O operation on closed file")
  | some con =>
    match con.sock with
    | none => Res.raised (Err.valueError "I/O operation on closed file")
    | some fd => Res.ok fd

/-- `EventualResult.cancel`: returns immediately when `result_ready` is set
or the connection is already cleared; otherwise disconnects the transport,
then dereferences `self.client` (which raises if the client is gone, after
the disconnect), releases the handle through the routing pool, clears the
connection reference and notifies the client. -/
def EventualResult.cancel (st : St) (i : Nat) : Res Unit × St :=
  let er := st.getEr i
  if er.result_ready || er.connection.isNone then (Res.ok (), st)
  else
    match er.connection with
    | none => (Res.ok (), st)
    | some con =>
      let con := { con with sock := none }
      let st := st.setEr i { er with connection := some con }
      let st := { st with disconnectCount := st.disconnectCount + 1 }
      if st.clientAlive then
        let st := RoutingPool.release st (some con)
        let st := st.setEr i { st.getEr i with connection := none }
        (Res.ok (), notify_request_done st i)
      else
        (Res.raised (Err.runtimeError "Client went away"), st)

/-- `EventualResult.wait_for_result`: when `result_ready` is not set it calls
`self.client.parse_response(self.connection, self.command_name)` (the client
dereference raises first when the client is gone; the read outcome comes from
`readOracle`, or `AttributeError` when the connection is `None`), assigns
`self.value` on success, and in the `finally` block notifies the client and
releases `self.connection` — on the success path and the raise path alike.
It returns `self.value`.  Exactly as in the source, `result_ready` is never
assigned and the connection reference is not cleared. -/
def EventualResult.wait_for_result (st : St) (i : Nat) : Res (Option Nat) × St :=
  let er := st.getEr i
  if er.result_ready then (Res.ok er.value, st)
  else if st.clientAlive then
    let outcome := match er.connection with
       | none => Except.error Err.attributeError
       | some _ => st.readOracle st.readCount
    let st := { st with readCount := st.readCount + 1 }
    match outcome with
    | Except.ok v =>
      let st := st.setEr i { er with value := some v }
      let st := notify_request_done st i
      let st := RoutingPool.release st (st.getEr i).connection
      (Res.ok (st.getEr i).value, st)
    | Except.error e =>
      let st := notify_request_done st i
      let st := RoutingPool.release st (st.getEr i).connection
      (Res.raised e, st)
  else (Res.raised (Err.runtimeError "Client went away"), st)

/-- The inner `for other_er in select.select(...)[0]: other_er.wait_for_result()`
loop of `eventual_parse_response`: completes each ready command in the order
the readiness primitive reported them, propagating any raise. -/
def waitAll : St → List Nat → Res Unit × St
  | st, [] => (Res.ok (), st)
  | st, i :: rest =>
    match EventualResult.wait_for_result st i with
    | (Res.ok _, st) => waitAll st rest
    | (Res.raised e, st) => (Res.raised e, st)
    | (Res.blocked, st) => (Res.blocked, st)

/-- The `while len(self.current_requests) >= self.max_concurrency:` admission
loop of `eventual_parse_response`.  Each iteration polls readiness over a
snapshot `self.current_requests[:]` (`select` returns the ready members of
the passed list, in list order, here the `ready` oracle indexed by
`selectCount`) and completes them.  `fuel` bounds the unbounded source loop;
running out yields `Res.blocked` (the caller is still waiting). -/
def drainWhile (n : Nat) : Nat → St → Res Unit × St
  | 0, st => (Res.blocked, st)
  | fuel + 1, st =>
    if st.current_requests.length ≥ n then
      let readyList := st.current_requests.filter (fun j => st.ready st.selectCount j)
      let st := { st with selectCount := st.selectCount + 1 }
      match waitAll st readyList with
      | (Res.ok _, st) => drainWhile n fuel st
      | (Res.raised e, st) => (Res.raised e, st)
      | (Res.blocked, st) => (Res.blocked, st)
    else (Res.ok (), st)

/-- `RoutingClient.eventual_parse_response`: wraps the sent command in a new
`EventualResult` (allocated at the end of the heap), runs the admission loop
when `max_concurrency` is configured, then appends the new command to
`current_requests` and returns it. -/
def eventual_parse_response (st : St) (connection : Conn) (command_name : String)
    (fuel : Nat) : Res Nat × St :=
  let erId := st.ers.length
  let er : Er := { connection := some connection, command_name := command_name,
                   value := none, result_ready := false }
  let st := { st with ers := st.ers ++ [er] }
  match st.max_concurrency with
  | none => (Res.ok erId, { st with current_requests := st.current_requests ++ [erId] })
  | some n =>
    match drainWhile n fuel st with
    | (Res.ok _, st) => (Res.ok erId, { st with current_requests := st.current_requests ++ [erId] })
    | (Res.raised e, st) => (Res.raised e, st)
    | (Res.blocked, st) => (Res.blocked, st)

/-- `connection.send_command(*args)`: external wire-protocol call, outcome
taken from `sendOracle` at the current send index. -/
def send_command (st : St) : Res Unit × St :=
  let outcome := st.sendOracle st.sendCount
  let st := { st with sendCount := st.sendCount + 1 }
  match outcome with
  | Except.ok _ => (Res.ok (), st)
  | Except.error e => (Res.raised e, st)

/-- The `except ConnectionError:` block of `RoutingClient.execute_command`:
`connection.disconnect()`, then `connection.send_command(*args)` (which
reconnects the same handle on a fresh socket) and a fresh
`eventual_parse_response`; any further raise propagates uncaught. -/
def executeRetry (st : St) (connection : Conn) (command_name : String)
    (fuel : Nat) : Res Nat × St :=
  let connection := { connection with sock := none }
  let st := { st with disconnectCount := st.disconnectCount + 1 }
  let connection := { connection with sock := some st.nextFd }
  let st := { st with nextFd := st.nextFd + 1 }
  match send_command st with
  | (Res.ok _, st) => eventual_parse_response st connection command_name fuel
  | (Res.raised e, st) => (Res.raised e, st)
  | (Res.blocked, st) => (Res.blocked, st)

/-- `RoutingClient.execute_command`: acquires a connection for `args[0]` and
`args[1:]` (here passed as head and tail), then runs
`try: send_command; eventual_parse_response except ConnectionError: retry`.
The `try` scope covers both the send and `eventual_parse_response`, exactly
as in the source. -/
def execute_command (st : St) (command_name : String) (command_args : List String)
    (fuel : Nat) : Res Nat × St :=
  match RoutingPool.get_connection st command_name none (some command_args) with
  | (Res.raised e, st) => (Res.raised e, st)
  | (Res.blocked, st) => (Res.blocked, st)
  | (Res.ok connection, st) =>
    match send_command st with
    | (Res.ok _, st) =>
      match eventual_parse_response st connection command_name fuel with
      | (Res.raised Err.connectionError, st) => executeRetry st connection command_name fuel
      | r => r
    | (Res.raised Err.connectionError, st) => executeRetry st connection command_name fuel
    | (Res.raised e, st) => (Res.raised e, st)
    | (Res.blocked, st) => (Res.blocked, st)

/-- The `for er in self.current_requests: er.cancel()` loop of
`cancel_outstanding_requests`, with CPython's list-iterator semantics: the
iterator keeps a position index into the LIVE list, so entries shifted left
by a concurrent `remove` (triggered by `cancel` → `notify_request_done`) are
skipped.  `fuel` bounds the loop; since the list never grows, an initial fuel
of `length + 1` always suffices. -/
def cancelLoop : Nat → Nat → St → Res Unit × St
  | _, 0, st => (Res.blocked, st)
  | idx, fuel + 1, st =>
    if h : idx < st.current_requests.length then
      match EventualResult.cancel st (st.current_requests.get ⟨idx, h⟩) with
      | (Res.ok _, st) => cancelLoop (idx + 1) fuel st
      | (Res.raised e, st) => (Res.raised e, st)
      | (Res.blocked, st) => (Res.blocked, st)
    else (Res.ok (), st)

/-- `RoutingClient.cancel_outstanding_requests`: iterates the live
`current_requests` list, cancelling each visited entry. -/
def cancel_outstanding_requests (st : St) : Res Unit × St :=
  cancelLoop 0 (st.current_requests.length + 1) st

/-- A quiescent base state used to build the concrete scenarios below: live
client, no outstanding commands, no concurrency limit, every external call
succeeding, pool `5` alive and routing every command to it via host `0`. -/
def mkSt : St :=
  { clientAlive := true
    max_concurrency := none
    current_requests := []
    ers := []
    livePools := [5]
    router := fun _ _ => some 0
    hostToPool := fun _ => 5
    readOracle := fun k => Except.ok (k + 1)
    sendOracle := fun _ => Except.ok ()
    ready := fun _ _ => true
    nextFd := 10
    readCount := 0
    sendCount := 0
    selectCount := 0
    notifyCount := 0
    routingReleaseCount := 0
    poolRelease := fun _ => 0
    poolAcquire := fun _ => 0
    totalAcquires := 0
    disconnectCount := 0 }

/-- A fresh, pending `EventualResult` on a socket `fd`, acquired from pool `5`. -/
def mkEr (fd : Nat) : Er :=
  { connection := some { sock := some fd, creatingPool := some 5 },
    command_name := "GET", value := none, result_ready := false }

/-- One pending command outstanding, every read succeeding. -/
def stPending : St := { mkSt with ers := [mkEr 3], current_requests := [0] }

/-- One pending command outstanding, every read raising `ConnectionError`. -/
def stPendingFail : St :=
  { mkSt with
    ers := [mkEr 3]
    current_requests := [0]
    readOracle := fun _ => Except.error Err.connectionError }

/-- Two pending commands outstanding. -/
def stTwoPending : St := { mkSt with ers := [mkEr 3, mkEr 4], current_requests := [0, 1] }

/-- Concurrency limit `1` with one pending command already outstanding. -/
def stAtLimit : St := { stPending with max_concurrency := some 1 }

/-- Concurrency limit `1`, one command outstanding, reads raising
`ConnectionError` (so a drain inside admission raises). -/
def stAtLimitFail : St := { stPendingFail with max_concurrency := some 1 }

/-- Every send raising `ConnectionError` (both the first send and the retry
resend fail). -/
def stSendFail : St := { mkSt with sendOracle := fun _ => Except.error Err.connectionError }

/-- The owning client destroyed while one pending command (socket `7`) is
still live. -/
def stDead : St := { mkSt with clientAlive := false, ers := [mkEr 7] }

/-- The router resolving no host for any command. -/
def stNoRoute : St := { mkSt with router := fun _ _ => none }

/-! ## Helper lemmas -/

theorem removeFirst_not_mem (x : Nat) :
    ∀ l : List Nat, l.count x ≤ 1 → x ∉ removeFirst l x := by
  intro l
  induction l with
  | nil => intro _ h; simp [removeFirst] at h
  | cons y ys ih =>
    intro hcount
    by_cases hy : y = x
    · subst hy
      simp only [removeFirst, if_pos rfl]
      rw [List.count_cons_self] at hcount
      have hz : ys.count y = 0 := by omega
      exact (List.count_eq_zero.mp hz)
    · simp only [removeFirst, if_neg hy, List.mem_cons]
      rw [List.count_cons_of_ne (fun h => hy h.symm)] at hcount
      rintro (h | h)
      · exact hy h.symm
      · exact ih hcount h

/-- `RoutingPool.release` bumps the release call counter and touches nothing
else besides the per-pool release counters. -/
theorem release_fields (st : St) (oc : Option Conn) :
    (RoutingPool.release st oc).routingReleaseCount = st.routingReleaseCount + 1
    ∧ (RoutingPool.release st oc).notifyCount = st.notifyCount
    ∧ (RoutingPool.release st oc).current_requests = st.current_requests
    ∧ (RoutingPool.release st oc).sendCount = st.sendCount
    ∧ (RoutingPool.release st oc).totalAcquires = st.totalAcquires
    ∧ (RoutingPool.release st oc).disconnectCount = st.disconnectCount
    ∧ (RoutingPool.release st oc).ers = st.ers := by
  refine ⟨?_, ?_, ?_, ?_, ?_, ?_, ?_⟩ <;>
  · simp only [RoutingPool.release]
    split
    · rfl
    · split
      · rfl
      · split <;> rfl

/-- The admission `while` loop only terminates normally once the outstanding
count has dropped strictly below the configured limit. -/
theorem drainWhile_ok_lt (n : Nat) :
    ∀ (fuel : Nat) (st st2 : St) (u : Unit),
      drainWhile n fuel st = (Res.ok u, st2) → st2.current_requests.length < n := by
  intro fuel
  induction fuel with
  | zero =>
    intro st st2 u h
    simp [drainWhile] at h
  | succ f ih =>
    intro st st2 u h
    simp only [drainWhile] at h
    split at h
    · split at h
      · exact ih _ _ u h
      · exact absurd h (by simp)
      · exact absurd h (by simp)
    · next hlen =>
      injection h with h1 h2
      subst h2
      omega

/-- `wait_for_result` performs no sends, no pool acquisitions and no
transport disconnects, whatever the read's outcome. -/
theorem wait_for_result_frame (st : St) (i : Nat) :
    (EventualResult.wait_for_result st i).2.sendCount = st.sendCount
    ∧ (EventualResult.wait_for_result st i).2.totalAcquires = st.totalAcquires
    ∧ (EventualResult.wait_for_result st i).2.disconnectCount = st.disconnectCount := by
  by_cases hready : (st.getEr i).result_ready = true
  · refine ⟨?_, ?_, ?_⟩ <;> simp [EventualResult.wait_for_result, hready]
  · have hready2 : (st.getEr i).result_ready = false := by simpa using hready
    by_cases halive : st.clientAlive = true
    · simp only [EventualResult.wait_for_result, hready2, halive, Bool.false_eq_true,
        if_false, if_true]
      cases hcn : (st.getEr i).connection with
      | none =>
        refine ⟨?_, ?_, ?_⟩ <;> simp [release_fields, notify_request_done, St.setEr]
      | some c =>
        cases hro : st.readOracle st.readCount with
        | ok v =>
          refine ⟨?_, ?_, ?_⟩ <;> simp [hro, release_fields, notify_request_done, St.setEr]
        | error e =>
          refine ⟨?_, ?_, ?_⟩ <;> simp [hro, release_fields, notify_request_done, St.setEr]
    · have halive2 : st.clientAlive = false := by simpa using halive
      refine ⟨?_, ?_, ?_⟩ <;> simp [EventualResult.wait_for_result, hready2, halive2]

/-- The drain-one-pass loop preserves the send/acquire/disconnect counters. -/
theorem waitAll_frame : ∀ (l : List Nat) (st : St),
    (waitAll st l).2.sendCount = st.sendCount
    ∧ (waitAll st l).2.totalAcquires = st.totalAcquires
    ∧ (waitAll st l).2.disconnectCount = st.disconnectCount := by
  intro l
  induction l with
  | nil => intro st; exact ⟨rfl, rfl, rfl⟩
  | cons i rest ih =>
    intro st
    have hf := wait_for_result_frame st i
    rcases hw : EventualResult.wait_for_result st i with ⟨r, st2⟩
    rw [hw] at hf
    unfold waitAll
    rw [hw]
    cases r with
    | ok a =>
      have h2 := ih st2
      exact ⟨h2.1.trans hf.1, h2.2.1.trans hf.2.1, h2.2.2.trans hf.2.2⟩
    | raised e => exact hf
    | blocked => exact hf

/-- The admission loop preserves the send/acquire/disconnect counters. -/
theorem drainWhile_frame (n : Nat) : ∀ (fuel : Nat) (st : St),
    (drainWhile n fuel st).2.sendCount = st.sendCount
    ∧ (drainWhile n fuel st).2.totalAcquires = st.totalAcquires
    ∧ (drainWhile n fuel st).2.disconnectCount = st.disconnectCount := by
  intro fuel
  induction fuel with
  | zero => intro st; exact ⟨rfl, rfl, rfl⟩
  | succ f ih =>
    intro st
    by_cases hlen : st.current_requests.length ≥ n
    · have hf := waitAll_frame
        (st.current_requests.filter (fun j => st.ready st.selectCount j))
        { st with selectCount := st.selectCount + 1 }
      rcases hw : waitAll { st with selectCount := st.selectCount + 1 }
          (st.current_requests.filter (fun j => st.ready st.selectCount j)) with ⟨r, st2⟩
      rw [hw] at hf
      unfold drainWhile
      rw [if_pos hlen]
      simp only [hw]
      cases r with
      | ok a =>
        have h2 := ih st2
        exact ⟨h2.1.trans hf.1, h2.2.1.trans hf.2.1, h2.2.2.trans hf.2.2⟩
      | raised e => exact hf
      | blocked => exact hf
    · unfold drainWhile
      rw [if_neg hlen]
      exact ⟨rfl, rfl, rfl⟩

/-- Dispatch admission performs no sends, acquisitions or disconnects. -/
theorem eventual_parse_response_frame (st : St) (con : Conn) (cmd : String) (fuel : Nat) :
    (eventual_parse_response st con cmd fuel).2.sendCount = st.sendCount
    ∧ (eventual_parse_response st con cmd fuel).2.totalAcquires = st.totalAcquires
    ∧ (eventual_parse_response st con cmd fuel).2.disconnectCount = st.disconnectCount := by
  rcases hv : eventual_parse_response st con cmd fuel with ⟨r, st2⟩
  simp only [eventual_parse_response] at hv
  split at hv
  · injection hv with h1 h2
    subst h2
    exact ⟨rfl, rfl, rfl⟩
  · next n hmc =>
    split at hv
    · next a st3 hw =>
      have hf := drainWhile_frame n fuel
        { st with ers := st.ers ++ [{ connection := some con, command_name := cmd,
                                      value := none, result_ready := false }] }
      rw [hw] at hf
      injection hv with h1 h2
      subst h2
      exact hf
    · next e st3 hw =>
      have hf := drainWhile_frame n fuel
        { st with ers := st.ers ++ [{ connection := some con, command_name := cmd,
                                      value := none, result_ready := false }] }
      rw [hw] at hf
      injection hv with h1 h2
      subst h2
      exact hf
    · next st3 hw =>
      have hf := drainWhile_frame n fuel
        { st with ers := st.ers ++ [{ connection := some con, command_name := cmd,
                                      value := none, result_ready := false }] }
      rw [hw] at hf
      injection hv with h1 h2
      subst h2
      exact hf

/-- A successful acquisition bumps the acquire counter once and leaves the
send/disconnect instrumentation alone. -/
theorem get_connection_ok (st : St) (cmd : String) (hint : Option Nat)
    (cargs : Option (List String)) (con : Conn) (st1 : St)
    (h : RoutingPool.get_connection st cmd hint cargs = (Res.ok con, st1)) :
    st1.sendCount = st.sendCount ∧ st1.sendOracle = st.sendOracle
    ∧ st1.totalAcquires = st.totalAcquires + 1
    ∧ st1.disconnectCount = st.disconnectCount := by
  cases cargs with
  | none => exact absurd h (by simp [RoutingPool.get_connection])
  | some args =>
    cases hr : st.router cmd args with
    | none =>
      simp [RoutingPool.get_connection, hr] at h
    | some hostid =>
      simp only [RoutingPool.get_connection, hr, Prod.mk.injEq] at h
      obtain ⟨h1, h2⟩ := h
      subst h2
      exact ⟨rfl, rfl, rfl, rfl⟩

/-- Unfolding of the retry path: disconnect, reconnect on a fresh socket,
resend, then a fresh admission step on success. -/
theorem executeRetry_eq (st : St) (con : Conn) (cmd : String) (fuel : Nat) :
    executeRetry st con cmd fuel =
      match st.sendOracle st.sendCount with
      | Except.ok _ =>
          eventual_parse_response
            { st with disconnectCount := st.disconnectCount + 1, nextFd := st.nextFd + 1,
                      sendCount := st.sendCount + 1 }
            { con with sock := some st.nextFd } cmd fuel
      | Except.error e =>
          (Res.raised e,
           { st with disconnectCount := st.disconnectCount + 1, nextFd := st.nextFd + 1,
                     sendCount := st.sendCount + 1 }) := by
  simp only [executeRetry, send_command]
  cases ho : st.sendOracle st.sendCount with
  | ok u => rfl
  | error e => rfl

/-- The retry path sends exactly once more, acquires nothing from any pool,
and disconnects the handle exactly once. -/
theorem executeRetry_frame (st : St) (con : Conn) (cmd : String) (fuel : Nat) :
    (executeRetry st con cmd fuel).2.sendCount = st.sendCount + 1
    ∧ (executeRetry st con cmd fuel).2.totalAcquires = st.totalAcquires
    ∧ (executeRetry st con cmd fuel).2.disconnectCount = st.disconnectCount + 1 := by
  rw [executeRetry_eq]
  cases ho : st.sendOracle st.sendCount with
  | ok u =>
    have hf := eventual_parse_response_frame
      { st with disconnectCount := st.disconnectCount + 1, nextFd := st.nextFd + 1,
                sendCount := st.sendCount + 1 }
      { con with sock := some st.nextFd } cmd fuel
    exact ⟨hf.1, hf.2.1, hf.2.2⟩
  | error e => exact ⟨rfl, rfl, rfl⟩

/-- When the resend raises, the retry path propagates that exception. -/
theorem executeRetry_send_raises (st : St) (con : Conn) (cmd : String) (fuel : Nat)
    (e : Err) (ho : st.sendOracle st.sendCount = Except.error e) :
    (executeRetry st con cmd fuel).1 = Res.raised e := by
  rw [executeRetry_eq, ho]

/-! ## Claims about `RoutingPool` -/

/-- C6: `RoutingPool.get_connection` fails immediately with a `TypeError`
when the routing arguments are absent, and with a routing-failure
`RuntimeError` when the router resolves no host; in both failure cases the
state — in particular every pool acquire counter — is unchanged, so no
per-host acquisition takes place. -/
theorem get_connection_failfast (st : St) (cmd : String) (hint : Option Nat)
    (args : List String) (hroute : st.router cmd args = none) :
    RoutingPool.get_connection st cmd hint none
      = (Res.raised (Err.typeError "The routing pool requires that the command arguments are provided."), st)
    ∧ RoutingPool.get_connection st cmd hint (some args)
      = (Res.raised (Err.runtimeError "Unable to determine host for command"), st)
    ∧ (RoutingPool.get_connection st cmd hint none).2.totalAcquires = st.totalAcquires
    ∧ (RoutingPool.get_connection st cmd hint (some args)).2.totalAcquires = st.totalAcquires := by
  have h2 : RoutingPool.get_connection st cmd hint (some args)
      = (Res.raised (Err.runtimeError "Unable to determine host for command"), st) := by
    simp only [RoutingPool.get_connection, hroute]
  exact ⟨rfl, h2, rfl, by rw [h2]⟩

/-- Witness for C6 at a concrete state whose router resolves nothing. -/
theorem get_connection_failfast_witness :
    stNoRoute.router "GET" ["a"] = none
    ∧ RoutingPool.get_connection stNoRoute "GET" none (some ["a"])
      = (Res.raised (Err.runtimeError "Unable to determine host for command"), stNoRoute)
    ∧ (RoutingPool.get_connection stNoRoute "GET" none (some ["a"])).2.totalAcquires
      = stNoRoute.totalAcquires :=
  ⟨rfl, (get_connection_failfast stNoRoute "GET" none ["a"] rfl).2.1,
    (get_connection_failfast stNoRoute "GET" none ["a"] rfl).2.2.2⟩

/-- C10: only an absent (`None`) `command_args` trips the missing-arguments
`TypeError`; an empty argument list is accepted and the call proceeds to the
router lookup, succeeding or failing according to the router alone. -/
theorem get_connection_empty_args (st : St) (cmd : String) (hint : Option Nat) :
    ((RoutingPool.get_connection st cmd hint (some [])).1
       ≠ Res.raised (Err.typeError "The routing pool requires that the command arguments are provided."))
    ∧ (st.router cmd [] = none →
        RoutingPool.get_connection st cmd hint (some [])
          = (Res.raised (Err.runtimeError "Unable to determine host for command"), st))
    ∧ (∀ h, st.router cmd [] = some h →
        RoutingPool.get_connection st cmd hint (some [])
          = (Res.ok { sock := some st.nextFd, creatingPool := some (st.hostToPool h) },
             { st with nextFd := st.nextFd + 1,
                       poolAcquire := bump st.poolAcquire (st.hostToPool h),
                       totalAcquires := st.totalAcquires + 1 })) := by
  refine ⟨?_, ?_, ?_⟩
  · cases hroute : st.router cmd [] <;> simp [RoutingPool.get_connection, hroute]
  · intro hroute; simp only [RoutingPool.get_connection, hroute]
  · intro h hroute; simp only [RoutingPool.get_connection, hroute]

/-- Witness for C10: in the base state the router maps the empty argument
list to host `0`, so the empty tuple passes the argument check and a handle
from pool `5` is acquired. -/
theorem get_connection_empty_args_witness :
    mkSt.router "GET" [] = some 0
    ∧ RoutingPool.get_connection mkSt "GET" none (some [])
      = (Res.ok { sock := some mkSt.nextFd, creatingPool := some (mkSt.hostToPool 0) },
         { mkSt with nextFd := mkSt.nextFd + 1,
                     poolAcquire := bump mkSt.poolAcquire (mkSt.hostToPool 0),
                     totalAcquires := mkSt.totalAcquires + 1 }) :=
  ⟨rfl, (get_connection_empty_args mkSt "GET" none).2.2 0 rfl⟩

/-- C8: `RoutingPool.release` dispatches the handle to the per-host pool
recorded in the handle's `__creating_pool` tag when that pool is still alive,
silently drops it when the pool is gone, and its effect is independent of the
current routing topology (`router`/`hostToPool`). -/
theorem release_dispatch (st : St) (con : Conn) (pid : Nat)
    (htag : con.creatingPool = some pid) :
    (pid ∈ st.livePools →
       RoutingPool.release st (some con)
         = { st with routingReleaseCount := st.routingReleaseCount + 1,
                     poolRelease := bump st.poolRelease pid })
    ∧ (pid ∉ st.livePools →
       RoutingPool.release st (some con)
         = { st with routingReleaseCount := st.routingReleaseCount + 1 })
    ∧ (∀ f g, RoutingPool.release { st with router := f, hostToPool := g } (some con)
         = { RoutingPool.release st (some con) with router := f, hostToPool := g }) := by
  refine ⟨?_, ?_, ?_⟩
  · intro hp; simp only [RoutingPool.release, htag, if_pos hp]
  · intro hp; simp only [RoutingPool.release, htag, if_neg hp]
  · intro f g
    by_cases hp : pid ∈ st.livePools <;>
      simp only [RoutingPool.release, htag, hp, if_pos, if_neg, not_false_iff]

/-- Witness for C8: a handle tagged with pool `5` goes back to pool `5` when
it is alive, and is silently dropped once the liveness table is empty. -/
theorem release_dispatch_witness :
    RoutingPool.release mkSt (some { sock := some 3, creatingPool := some 5 })
      = { mkSt with routingReleaseCount := mkSt.routingReleaseCount + 1,
                    poolRelease := bump mkSt.poolRelease 5 }
    ∧ RoutingPool.release { mkSt with livePools := [] }
        (some { sock := some 3, creatingPool := some 5 })
      = { { mkSt with livePools := [] } with
          routingReleaseCount := ({ mkSt with livePools := [] } : St).routingReleaseCount + 1 } :=
  ⟨(release_dispatch mkSt { sock := some 3, creatingPool := some 5 } 5 rfl).1 (by decide),
   (release_dispatch { mkSt with livePools := [] }
      { sock := some 3, creatingPool := some 5 } 5 rfl).2.1 (by decide)⟩

/-! ## Claims about `EventualResult` -/

/-- C1 fails on the code: `result_ready` is initialised `False` in
`__init__`, tested in `wait_for_result`, but never assigned `True`, so a
second `wait_for_result` call on the same completed command performs a second
underlying read and a second release (and, when the stream yields different
replies, even returns a different value): after two calls on a fresh command
the read counter and the release counter are both `2`, and the two calls
return `some 1` and `some 2`. -/
theorem wait_for_result_not_idempotent :
    (EventualResult.wait_for_result stPending 0).1 = Res.ok (some 1)
    ∧ (EventualResult.wait_for_result (EventualResult.wait_for_result stPending 0).2 0).1
        = Res.ok (some 2)
    ∧ (EventualResult.wait_for_result (EventualResult.wait_for_result stPending 0).2 0).2.readCount = 2
    ∧ (EventualResult.wait_for_result
        (EventualResult.wait_for_result stPending 0).2 0).2.routingReleaseCount = 2 :=
  ⟨rfl, rfl, rfl, rfl⟩

/-- C7 fails on the code: because `wait_for_result` neither sets
`result_ready` nor clears `connection`, a `cancel()` issued after the command
has completed passes the `if self.result_ready or self.connection is None`
guard and releases the already-released handle a second time: pool `5`'s
release counter reaches `2` for one acquired handle. -/
theorem cancel_after_completion_double_release :
    (EventualResult.wait_for_result stPending 0).1 = Res.ok (some 1)
    ∧ (EventualResult.wait_for_result stPending 0).2.poolRelease 5 = 1
    ∧ (EventualResult.cancel (EventualResult.wait_for_result stPending 0).2 0).2.poolRelease 5 = 2 :=
  ⟨rfl, rfl, rfl⟩

/-- C3 fails on the code: `cancel_outstanding_requests` iterates the live
`current_requests` list while each `cancel()` removes its entry from that
same list, so (by CPython's index-based list iteration) every other entry is
skipped.  With two outstanding commands, only command `0` is cancelled;
command `1` keeps its connection and the outstanding set afterwards is `[1]`,
not empty. -/
theorem cancel_outstanding_skips_survivor :
    (cancel_outstanding_requests stTwoPending).1 = Res.ok ()
    ∧ (cancel_outstanding_requests stTwoPending).2.current_requests = [1]
    ∧ ((cancel_outstanding_requests stTwoPending).2.getEr 0).connection = none
    ∧ ((cancel_outstanding_requests stTwoPending).2.getEr 1).connection
        = some { sock := some 4, creatingPool := some 5 } :=
  ⟨rfl, rfl, rfl, rfl⟩

/-- C9 fails as stated: `fileno` never dereferences `self.client`, so on a
destroyed client it happily returns the descriptor of a still-open socket
instead of raising a liveness error; likewise `cancel` on an
already-terminal command returns silently without consulting the client. -/
theorem dead_client_fileno_cex :
    stDead.clientAlive = false
    ∧ EventualResult.fileno stDead 0 = Res.ok 7
    ∧ (EventualResult.cancel { stDead with ers := [{ mkEr 7 with connection := none }] } 0).1
        = Res.ok () :=
  ⟨rfl, rfl, rfl⟩

/-- C9 amended: the operations that do dereference the owning client — the
`client` accessor, `wait_for_result` on a not-yet-completed command, and
`cancel` on a non-terminal command — fail immediately with
`RuntimeError("Client went away")` when the client is destroyed, an error
value distinct from the closed-resource, transport and routing errors;
`fileno` does not consult the client at all. -/
theorem dead_client_liveness (st : St) (i : Nat)
    (hdead : st.clientAlive = false)
    (hready : (st.getEr i).result_ready = false)
    (hcon : (st.getEr i).connection.isNone = false) :
    EventualResult.client st = Res.raised (Err.runtimeError "Client went away")
    ∧ (EventualResult.wait_for_result st i).1 = Res.raised (Err.runtimeError "Client went away")
    ∧ (EventualResult.cancel st i).1 = Res.raised (Err.runtimeError "Client went away")
    ∧ (∀ m, Err.runtimeError "Client went away" ≠ Err.valueError m)
    ∧ Err.runtimeError "Client went away" ≠ Err.connectionError
    ∧ Err.runtimeError "Client went away" ≠ Err.runtimeError "Unable to determine host for command" := by
  refine ⟨?_, ?_, ?_, ?_, ?_, ?_⟩
  · simp [EventualResult.client, hdead]
  · simp only [EventualResult.wait_for_result, hready, hdead, Bool.false_eq_true, if_false]
  · obtain ⟨c, hc⟩ : ∃ c, (st.getEr i).connection = some c := by
      cases hcn : (st.getEr i).connection with
      | none => rw [hcn] at hcon; simp at hcon
      | some c => exact ⟨c, rfl⟩
    simp [EventualResult.cancel, hready, hc, hdead, St.setEr]
  · intro m; exact fun h => Err.noConfusion h
  · exact fun h => Err.noConfusion h
  · intro h
    have : "Client went away" = "Unable to determine host for command" := by
      injection h
    simp at this

/-- Witness for the amended C9 at the concrete destroyed-client state. -/
theorem dead_client_liveness_witness :
    stDead.clientAlive = false
    ∧ EventualResult.client stDead = Res.raised (Err.runtimeError "Client went away")
    ∧ (EventualResult.wait_for_result stDead 0).1 = Res.raised (Err.runtimeError "Client went away")
    ∧ (EventualResult.cancel stDead 0).1 = Res.raised (Err.runtimeError "Client went away") := by
  have h := dead_client_liveness stDead 0 rfl rfl rfl
  exact ⟨rfl, h.1, h.2.1, h.2.2.1⟩

/-- C2: one call to `wait_for_result` on a not-yet-completed command with a
live client performs, on every exit path — the read returning a value or
raising — exactly one completion notification and exactly one release call,
and the command's entry is removed from the outstanding set (so no entry
dangles when the set held it at most once, its invariant). -/
theorem wait_for_result_cleanup (st : St) (i : Nat)
    (halive : st.clientAlive = true)
    (hready : (st.getEr i).result_ready = false) :
    (EventualResult.wait_for_result st i).2.notifyCount = st.notifyCount + 1
    ∧ (EventualResult.wait_for_result st i).2.routingReleaseCount = st.routingReleaseCount + 1
    ∧ (EventualResult.wait_for_result st i).2.current_requests = removeFirst st.current_requests i
    ∧ (st.current_requests.count i ≤ 1 →
        i ∉ (EventualResult.wait_for_result st i).2.current_requests) := by
  have key : (EventualResult.wait_for_result st i).2.notifyCount = st.notifyCount + 1
      ∧ (EventualResult.wait_for_result st i).2.routingReleaseCount = st.routingReleaseCount + 1
      ∧ (EventualResult.wait_for_result st i).2.current_requests
          = removeFirst st.current_requests i := by
    simp only [EventualResult.wait_for_result, hready, halive, Bool.false_eq_true, if_false,
      if_true]
    cases hcn : (st.getEr i).connection with
    | none =>
      simp only []
      refine ⟨?_, ?_, ?_⟩ <;>
        simp [release_fields, notify_request_done, St.setEr]
    | some c =>
      cases hro : st.readOracle st.readCount with
      | ok v =>
        refine ⟨?_, ?_, ?_⟩ <;>
          simp [hro, release_fields, notify_request_done, St.setEr]
      | error e =>
        refine ⟨?_, ?_, ?_⟩ <;>
          simp [hro, release_fields, notify_request_done, St.setEr]
  refine ⟨key.1, key.2.1, key.2.2, ?_⟩
  intro hcount
  rw [key.2.2]
  exact removeFirst_not_mem i st.current_requests hcount

/-- Witness for C2 on the raising path: the read raises `ConnectionError`,
yet afterwards exactly one notification and one release have happened and
the entry is out of the outstanding set. -/
theorem wait_for_result_cleanup_witness :
    stPendingFail.clientAlive = true
    ∧ (stPendingFail.getEr 0).result_ready = false
    ∧ (EventualResult.wait_for_result stPendingFail 0).1 = Res.raised Err.connectionError
    ∧ (EventualResult.wait_for_result stPendingFail 0).2.notifyCount
        = stPendingFail.notifyCount + 1
    ∧ (EventualResult.wait_for_result stPendingFail 0).2.routingReleaseCount
        = stPendingFail.routingReleaseCount + 1
    ∧ 0 ∉ (EventualResult.wait_for_result stPendingFail 0).2.current_requests := by
  have h := wait_for_result_cleanup stPendingFail 0 rfl rfl
  exact ⟨rfl, rfl, rfl, h.1, h.2.1, h.2.2.2 (by decide)⟩

/-! ## Claims about `RoutingClient` dispatch -/

/-- C4: with `max_concurrency = some n`, whenever `eventual_parse_response`
returns normally the new command was appended only after the drain loop
brought the outstanding count strictly below `n` (so the resulting set holds
at most `n` entries and ends with the new command); with `max_concurrency`
absent the append happens immediately — no select poll and no draining read
ever run. -/
theorem eventual_parse_response_admission (st : St) (con : Conn) (cmd : String)
    (fuel n : Nat) :
    (st.max_concurrency = some n →
      ∀ i st2, eventual_parse_response st con cmd fuel = (Res.ok i, st2) →
        st2.current_requests.length ≤ n ∧ st2.current_requests.getLast? = some i)
    ∧ (st.max_concurrency = none →
        (eventual_parse_response st con cmd fuel).1 = Res.ok st.ers.length
        ∧ (eventual_parse_response st con cmd fuel).2.current_requests
            = st.current_requests ++ [st.ers.length]
        ∧ (eventual_parse_response st con cmd fuel).2.readCount = st.readCount
        ∧ (eventual_parse_response st con cmd fuel).2.selectCount = st.selectCount) := by
  constructor
  · intro hmc i st2 heq
    simp only [eventual_parse_response] at heq
    split at heq
    · next hmc2 =>
      have hx : st.max_concurrency = none := hmc2
      rw [hmc] at hx
      exact Option.noConfusion hx
    · next n2 hmc2 =>
      have hx : st.max_concurrency = some n2 := hmc2
      rw [hmc] at hx
      injection hx with hx
      subst hx
      rcases hw : drainWhile n fuel
          { st with ers := st.ers ++ [{ connection := some con, command_name := cmd,
                                        value := none, result_ready := false }] } with ⟨r, st3⟩
      rw [hw] at heq
      cases r with
      | ok a =>
        have hlen := drainWhile_ok_lt n fuel _ st3 a hw
        have heq2 : (Res.ok st.ers.length,
            { st3 with current_requests := st3.current_requests ++ [st.ers.length] })
            = (Res.ok i, st2) := heq
        injection heq2 with h1 h2
        injection h1 with h1
        subst h1
        subst h2
        constructor
        · simp only [List.length_append, List.length_cons, List.length_nil]
          omega
        · simp
      | raised e =>
        have heq2 : ((Res.raised e : Res Nat), st3) = (Res.ok i, st2) := heq
        simp at heq2
      | blocked =>
        have heq2 : ((Res.blocked : Res Nat), st3) = (Res.ok i, st2) := heq
        simp at heq2
  · intro hmc
    rcases hv : eventual_parse_response st con cmd fuel with ⟨r, st2⟩
    simp only [eventual_parse_response] at hv
    split at hv
    · injection hv with h1 h2
      subst h2
      exact ⟨h1.symm, rfl, rfl, rfl⟩
    · next n2 hmc2 =>
      have hx : st.max_concurrency = some n2 := hmc2
      rw [hmc] at hx
      exact Option.noConfusion hx

/-- Witness for C4: at limit `1` with one outstanding ready command, the
dispatcher drains it and then appends, leaving exactly one (the new)
command outstanding. -/
theorem eventual_parse_response_admission_witness :
    stAtLimit.max_concurrency = some 1
    ∧ stAtLimit.current_requests.length = 1
    ∧ (eventual_parse_response stAtLimit { sock := some 9, creatingPool := some 5 }
        "GET" 3).2.current_requests.length ≤ 1
    ∧ (eventual_parse_response stAtLimit { sock := some 9, creatingPool := some 5 }
        "GET" 3).2.current_requests.getLast? = some 1 := by
  have h := (eventual_parse_response_admission stAtLimit
      { sock := some 9, creatingPool := some 5 } "GET" 3 1).1 rfl 1
      (eventual_parse_response stAtLimit { sock := some 9, creatingPool := some 5 } "GET" 3).2
      rfl
  exact ⟨rfl, rfl, h.1, h.2⟩

/-- C5 as stated fails on the code: the `try` block of `execute_command`
covers both `send_command` and `eventual_parse_response`, so a
`ConnectionError` raised while the admission step drains another command's
read triggers the reconnect-and-resend path even though the first send
succeeded — after one call with a successful send, the send counter is `2`
and the handle was disconnected once. -/
theorem retry_after_successful_send_cex :
    stAtLimitFail.sendOracle 0 = Except.ok ()
    ∧ (execute_command stAtLimitFail "GET" ["a"] 4).2.sendCount = 2
    ∧ (execute_command stAtLimitFail "GET" ["a"] 4).2.disconnectCount = 1 :=
  ⟨rfl, rfl, rfl⟩

/-- C5 amended: `execute_command` sends at most twice (at most one retry) and
acquires from the pool exactly once (the retry reuses the same handle); when
the first send raises a connection error the handle is disconnected exactly
once and resent once, a failing resend propagating its error; and when the
first send succeeds and the admission step does not raise a connection error,
no retry happens — but a connection error out of the admission step after a
successful send does trigger the one retry (see the counterexample). -/
theorem execute_command_retry_semantics (st : St) (cmd : String) (args : List String)
    (fuel : Nat) (con : Conn) (st1 : St)
    (hacq : RoutingPool.get_connection st cmd none (some args) = (Res.ok con, st1)) :
    (execute_command st cmd args fuel).2.sendCount ≤ st.sendCount + 2
    ∧ (execute_command st cmd args fuel).2.totalAcquires = st.totalAcquires + 1
    ∧ (st.sendOracle st.sendCount = Except.error Err.connectionError →
        (execute_command st cmd args fuel).2.disconnectCount = st.disconnectCount + 1
        ∧ ∀ e, st.sendOracle (st.sendCount + 1) = Except.error e →
            (execute_command st cmd args fuel).1 = Res.raised e
            ∧ (execute_command st cmd args fuel).2.sendCount = st.sendCount + 2)
    ∧ (∀ st2, send_command st1 = (Res.ok (), st2) →
        (eventual_parse_response st2 con cmd fuel).1 ≠ Res.raised Err.connectionError →
        (execute_command st cmd args fuel).2.sendCount = st.sendCount + 1) := by
  obtain ⟨hsc, hso, hta, hdc⟩ := get_connection_ok st cmd none (some args) con st1 hacq
  have hexec : execute_command st cmd args fuel =
      (match send_command st1 with
       | (Res.ok _, stA) =>
         (match eventual_parse_response stA con cmd fuel with
          | (Res.raised Err.connectionError, stB) => executeRetry stB con cmd fuel
          | r => r)
       | (Res.raised Err.connectionError, stA) => executeRetry stA con cmd fuel
       | (Res.raised e, stA) => (Res.raised e, stA)
       | (Res.blocked, stA) => (Res.blocked, stA)) := by
    unfold execute_command
    rw [hacq]
  cases hor : st1.sendOracle st1.sendCount with
  | ok u =>
    have hsend : send_command st1 = (Res.ok (), { st1 with sendCount := st1.sendCount + 1 }) := by
      unfold send_command
      rw [hor]
    rw [hsend] at hexec
    have hexec2 : execute_command st cmd args fuel =
        (match eventual_parse_response { st1 with sendCount := st1.sendCount + 1 } con cmd fuel with
         | (Res.raised Err.connectionError, stB) => executeRetry stB con cmd fuel
         | r => r) := hexec
    rcases hepr : eventual_parse_response { st1 with sendCount := st1.sendCount + 1 } con cmd fuel
      with ⟨re, stB⟩
    have hfe := eventual_parse_response_frame { st1 with sendCount := st1.sendCount + 1 } con cmd fuel
    rw [hepr] at hfe
    rw [hepr] at hexec2
    have hBs : stB.sendCount = st1.sendCount + 1 := hfe.1
    have hBt : stB.totalAcquires = st1.totalAcquires := hfe.2.1
    have hBd : stB.disconnectCount = st1.disconnectCount := hfe.2.2
    have hnotce : ¬ st.sendOracle st.sendCount = Except.error Err.connectionError := by
      rw [← hso, ← hsc, hor]
      simp
    cases re with
    | ok i =>
      have h3 : execute_command st cmd args fuel = (Res.ok i, stB) := hexec2
      rw [h3]
      refine ⟨?_, ?_, fun habs => absurd habs hnotce, ?_⟩
      · show stB.sendCount ≤ st.sendCount + 2
        omega
      · show stB.totalAcquires = st.totalAcquires + 1
        omega
      · intro st2 hsend2 hne
        show stB.sendCount = st.sendCount + 1
        omega
    | blocked =>
      have h3 : execute_command st cmd args fuel = (Res.blocked, stB) := hexec2
      rw [h3]
      refine ⟨?_, ?_, fun habs => absurd habs hnotce, ?_⟩
      · show stB.sendCount ≤ st.sendCount + 2
        omega
      · show stB.totalAcquires = st.totalAcquires + 1
        omega
      · intro st2 hsend2 hne
        show stB.sendCount = st.sendCount + 1
        omega
    | raised e =>
      by_cases hce : e = Err.connectionError
      · subst hce
        have h3 : execute_command st cmd args fuel = executeRetry stB con cmd fuel := hexec2
        obtain ⟨hr1, hr2, hr3⟩ := executeRetry_frame stB con cmd fuel
        rw [h3]
        refine ⟨?_, ?_, fun habs => absurd habs hnotce, ?_⟩
        · omega
        · omega
        · intro st2 hsend2 hne
          have hx := hsend.symm.trans hsend2
          injection hx with hx1 hx2
          subst hx2
          exact absurd (by rw [hepr]) hne
      · have h3 : execute_command st cmd args fuel = (Res.raised e, stB) := by
          rw [hexec2]
          cases e with
          | connectionError => exact absurd rfl hce
          | typeError m => rfl
          | runtimeError m => rfl
          | valueError m => rfl
          | attributeError => rfl
        rw [h3]
        refine ⟨?_, ?_, fun habs => absurd habs hnotce, ?_⟩
        · show stB.sendCount ≤ st.sendCount + 2
          omega
        · show stB.totalAcquires = st.totalAcquires + 1
          omega
        · intro st2 hsend2 hne
          show stB.sendCount = st.sendCount + 1
          omega
  | error e =>
    have hsend : send_command st1 = (Res.raised e, { st1 with sendCount := st1.sendCount + 1 }) := by
      unfold send_command
      rw [hor]
    rw [hsend] at hexec
    by_cases hce : e = Err.connectionError
    · subst hce
      have h3 : execute_command st cmd args fuel
          = executeRetry { st1 with sendCount := st1.sendCount + 1 } con cmd fuel := hexec
      obtain ⟨hr1, hr2, hr3⟩ := executeRetry_frame { st1 with sendCount := st1.sendCount + 1 }
        con cmd fuel
      have hr1b : (executeRetry { st1 with sendCount := st1.sendCount + 1 } con cmd fuel).2.sendCount
          = st1.sendCount + 1 + 1 := hr1
      have hr2b : (executeRetry { st1 with sendCount := st1.sendCount + 1 } con cmd fuel).2.totalAcquires
          = st1.totalAcquires := hr2
      have hr3b : (executeRetry { st1 with sendCount := st1.sendCount + 1 } con cmd fuel).2.disconnectCount
          = st1.disconnectCount + 1 := hr3
      rw [h3]
      refine ⟨by omega, by omega, ?_, ?_⟩
      · intro hce2
        refine ⟨by omega, ?_⟩
        intro e2 ho2
        constructor
        · apply executeRetry_send_raises
          show st1.sendOracle (st1.sendCount + 1) = Except.error e2
          rw [hso, hsc]
          exact ho2
        · omega
      · intro st2 hsend2 hne
        have hx := hsend.symm.trans hsend2
        exact absurd hx (by simp)
    · have h3 : execute_command st cmd args fuel
          = (Res.raised e, { st1 with sendCount := st1.sendCount + 1 }) := by
        rw [hexec]
        cases e with
        | connectionError => exact absurd rfl hce
        | typeError m => rfl
        | runtimeError m => rfl
        | valueError m => rfl
        | attributeError => rfl
      rw [h3]
      refine ⟨?_, ?_, ?_, ?_⟩
      · show st1.sendCount + 1 ≤ st.sendCount + 2
        omega
      · show st1.totalAcquires = st.totalAcquires + 1
        omega
      · intro habs
        rw [← hso, ← hsc] at habs
        rw [hor] at habs
        injection habs with habs
        exact absurd habs hce
      · intro st2 hsend2 hne
        have hx := hsend.symm.trans hsend2
        exact absurd hx (by simp)

/-- Witness for the amended C5: with both the send and the resend raising
`ConnectionError`, the command fails with that error after exactly two sends,
one disconnect and a single pool acquisition. -/
theorem execute_command_retry_witness :
    (execute_command stSendFail "GET" ["a"] 3).1 = Res.raised Err.connectionError
    ∧ (execute_command stSendFail "GET" ["a"] 3).2.sendCount = stSendFail.sendCount + 2
    ∧ (execute_command stSendFail "GET" ["a"] 3).2.disconnectCount = stSendFail.disconnectCount + 1
    ∧ (execute_command stSendFail "GET" ["a"] 3).2.totalAcquires = stSendFail.totalAcquires + 1 := by
  have h := execute_command_retry_semantics stSendFail "GET" ["a"] 3
      { sock := some stSendFail.nextFd, creatingPool := some (stSendFail.hostToPool 0) }
      { stSendFail with nextFd := stSendFail.nextFd + 1,
                        poolAcquire := bump stSendFail.poolAcquire (stSendFail.hostToPool 0),
                        totalAcquires := stSendFail.totalAcquires + 1 }
      rfl
  have h3 := h.2.2.1 rfl
  exact ⟨(h3.2 Err.connectionError rfl).1, (h3.2 Err.connectionError rfl).2, h3.1, h.2.1⟩

end Abanico
